import Mathlib

/-! Shallow embedding of the reactive parameter/grid consistency substrate of
abTEM (module abtem.base_classes): Event, Cache, the memoization layer,
Grid and Accelerator.

Modelling conventions:
* Python floats are modelled as exact rationals, Python ints as integers.
* A Python object mutated in place is modelled by explicit state passing; a
  method that can raise returns its final state paired with an optional error
  message. The returned state is the object as it stands when the exception
  surfaces, since Python leaves earlier mutations in place.
* The Event owned by a Grid or Accelerator carries no registered callbacks in
  the embedding; only its notification counter is tracked (field changed).
  External callback dispatch, namely cache invalidation, is modelled
  explicitly at the call sites that register callbacks, and a standalone
  Event structure with callbacks acting on a Cache is provided for the
  cache-invalidation contract.
* Grid._validate accepts scalars or sequences in Python; the embedding takes
  the sequence form (a scalar argument corresponds to a replicated list).
* Division by zero raises ZeroDivisionError in Python while rational division
  in Lean totalises it as 0; theorems carry positivity hypotheses that keep
  the two semantics in agreement on the stated domain.
-/

namespace Abtem

/-- Bounded insertion-ordered cache (class Cache in the source). The field
cached is the backing OrderedDict, kept as an association list in insertion
order; _hits and _misses are the two counters. -/
structure Cache (K V : Type) where
  max_size : Option Nat
  cached : List (K × V)
  _hits : Nat
  _misses : Nat
  deriving DecidableEq

/-- Assignment d[k] = v on an OrderedDict: an existing key keeps its position
and gets the new value; a new key is appended at the end. -/
def odAssign {K V : Type} [DecidableEq K] (l : List (K × V)) (k : K) (v : V) :
    List (K × V) :=
  if k ∈ l.map Prod.fst then
    l.map (fun p => if p.1 = k then (k, v) else p)
  else
    l ++ [(k, v)]

/-- The loop in Cache._check_size: while the dict length exceeds the bound,
popitem(last=False) removes the oldest (front) item. -/
def popOldestWhileOver {K V : Type} (m : Nat) : List (K × V) → List (K × V)
  | [] => []
  | x :: xs => if m < (x :: xs).length then popOldestWhileOver m xs else x :: xs

/-- Cache._check_size: no-op when max_size is None. -/
def Cache.check_size {K V : Type} (c : Cache K V) : Cache K V :=
  match c.max_size with
  | none => c
  | some m => { c with cached := popOldestWhileOver m c.cached }

/-- Cache.insert: store the value, then enforce the size bound. -/
def Cache.insert {K V : Type} [DecidableEq K] (c : Cache K V) (k : K) (v : V) :
    Cache K V :=
  Cache.check_size { c with cached := odAssign c.cached k v }

/-- Cache.retrieve: dictionary lookup (None models the KeyError case). -/
def Cache.retrieve {K V : Type} [DecidableEq K] (c : Cache K V) (k : K) :
    Option V :=
  (c.cached.find? (fun p => decide (p.1 = k))).map Prod.snd

/-- Cache.clear: reset the dict and zero both counters. -/
def Cache.clear {K V : Type} (c : Cache K V) : Cache K V :=
  { c with cached := [], _hits := 0, _misses := 0 }

/-- The hits property: returns the hit counter. -/
def Cache.hits {K V : Type} (c : Cache K V) : Nat := c._hits

/-- The misses property. As in the source it returns the hit counter
(the body is return self._hits under the miss-count docstring). -/
def Cache.misses {K V : Type} (c : Cache K V) : Nat := c._hits

/-- len(cache): number of objects cached. -/
def Cache.size {K V : Type} (c : Cache K V) : Nat := c.cached.length

/-- A freshly constructed Cache(max_size). -/
def Cache.fresh (K V : Type) (max_size : Option Nat) : Cache K V :=
  { max_size := max_size, cached := [], _hits := 0, _misses := 0 }

/-- Repeated Cache.insert over a list of key-value pairs, left to right. -/
def Cache.insertAll {K V : Type} [DecidableEq K] (c : Cache K V)
    (kvs : List (K × V)) : Cache K V :=
  kvs.foldl (fun acc p => acc.insert p.1 p.2) c

/-- cache_clear_callback(target_cache): the produced callback, written as a
state transformer of the target cache. The arguments mirror the Python
callback signature (notifier, property_name, change); the notifier plays no
role in the body and is omitted. -/
def cache_clear_callback {K V : Type} : String → Bool → Cache K V → Cache K V :=
  fun _property_name change target_cache =>
    if change then target_cache.clear else target_cache

/-- An Event whose registered callbacks act on a Cache (the shape used by the
cache-invalidation pattern). -/
structure Event (K V : Type) where
  callbacks : List (String → Bool → Cache K V → Cache K V)
  _notify_count : Nat

/-- Event.notify: bump the counter and run every callback in registration
order on the shared target state. -/
def Event.notify {K V : Type} (e : Event K V) (property_name : String)
    (change : Bool) (target : Cache K V) : Event K V × Cache K V :=
  ({ e with _notify_count := e._notify_count + 1 },
   e.callbacks.foldl (fun c cb => cb property_name change c) target)

/-- The Grid object. The changed field is the notification counter of the
Event owned by the grid (Event.notify_count). -/
structure Grid where
  dimensions : Nat
  endpoint : Bool
  lock_extent : Bool
  lock_gpts : Bool
  lock_sampling : Bool
  extent : Option (List ℚ)
  gpts : Option (List ℤ)
  sampling : Option (List ℚ)
  changed : Nat
  deriving DecidableEq

/-- Grid._validate on a sequence argument (whose length must equal the number
of dimensions) or None. Returns the validated value with an optional error. -/
def Grid.validate {α : Type} (g : Grid) (v : Option (List α)) :
    Option (List α) × Option String :=
  match v with
  | none => (none, none)
  | some xs =>
    if xs.length = g.dimensions then (some xs, none)
    else (none, some "Grid value length mismatch")

/-- Grid._adjust_extent: recompute extent from gpts and sampling when both
are defined. -/
def Grid.adjust_extent (g : Grid) (gpts : Option (List ℤ))
    (sampling : Option (List ℚ)) : Grid :=
  match gpts, sampling with
  | some ns, some ds =>
    if g.endpoint then
      { g with extent := some (List.zipWith (fun (n : ℤ) (d : ℚ) => ((n : ℚ) - 1) * d) ns ds) }
    else
      { g with extent := some (List.zipWith (fun (n : ℤ) (d : ℚ) => (n : ℚ) * d) ns ds) }
  | _, _ => g

/-- Grid._adjust_gpts: recompute gpts as the ceiling of extent over sampling
when both are defined. -/
def Grid.adjust_gpts (g : Grid) (extent : Option (List ℚ))
    (sampling : Option (List ℚ)) : Grid :=
  match extent, sampling with
  | some ls, some ds =>
    if g.endpoint then
      { g with gpts := some (List.zipWith (fun (l : ℚ) (d : ℚ) => Int.ceil (l / d) + 1) ls ds) }
    else
      { g with gpts := some (List.zipWith (fun (l : ℚ) (d : ℚ) => Int.ceil (l / d)) ls ds) }
  | _, _ => g

/-- Grid._adjust_sampling: recompute sampling from extent and gpts when both
are defined. -/
def Grid.adjust_sampling (g : Grid) (extent : Option (List ℚ))
    (gpts : Option (List ℤ)) : Grid :=
  match extent, gpts with
  | some ls, some ns =>
    if g.endpoint then
      { g with sampling := some (List.zipWith (fun (l : ℚ) (n : ℤ) => l / ((n : ℚ) - 1)) ls ns) }
    else
      { g with sampling := some (List.zipWith (fun (l : ℚ) (n : ℤ) => l / (n : ℚ)) ls ns) }
  | _, _ => g

/-- The watched_method decorator applied to a Grid mutator: run the wrapped
function; if it returns normally, notify the changed Event. The notification
is unconditional and always passes change=True. On an exception the event is
not notified. -/
def Grid.watched (f : Grid → Grid × Option String) (g : Grid) :
    Grid × Option String :=
  match f g with
  | (g1, none) => ({ g1 with changed := g1.changed + 1 }, none)
  | (g1, some e) => (g1, some e)

/-- Body of the extent setter (before the watched_method wrapper). -/
def Grid.extent_setter (g : Grid) (value : Option (List ℚ)) :
    Grid × Option String :=
  if g.lock_extent then (g, some "Extent cannot be modified")
  else
    match g.validate value with
    | (_, some e) => (g, some e)
    | (extent, none) =>
      let g1 :=
        if g.lock_sampling ∨ g.gpts = none then
          let ga := g.adjust_gpts extent g.sampling
          ga.adjust_sampling extent ga.gpts
        else
          g.adjust_sampling extent g.gpts
      ({ g1 with extent := extent }, none)

/-- The extent property setter, with notification. -/
def Grid.extentSet (g : Grid) (value : Option (List ℚ)) : Grid × Option String :=
  Grid.watched (fun g0 => g0.extent_setter value) g

/-- Body of the gpts setter (before the watched_method wrapper). -/
def Grid.gpts_setter (g : Grid) (value : Option (List ℤ)) :
    Grid × Option String :=
  if g.lock_gpts then (g, some "Grid gpts cannot be modified")
  else
    match g.validate value with
    | (_, some e) => (g, some e)
    | (gpts, none) =>
      let g1 :=
        if g.lock_sampling then g.adjust_extent gpts g.sampling
        else if g.extent ≠ none then g.adjust_sampling g.extent gpts
        else g.adjust_extent gpts g.sampling
      ({ g1 with gpts := gpts }, none)

/-- The gpts property setter, with notification. -/
def Grid.gptsSet (g : Grid) (value : Option (List ℤ)) : Grid × Option String :=
  Grid.watched (fun g0 => g0.gpts_setter value) g

/-- Body of the sampling setter (before the watched_method wrapper). Note
that, as in the source, the assigned value is never stored directly: the
final stored sampling is re-derived from extent and gpts, and when neither
extent nor gpts is defined the stored sampling is left untouched. -/
def Grid.sampling_setter (g : Grid) (value : Option (List ℚ)) :
    Grid × Option String :=
  if g.lock_sampling then (g, some "Sampling cannot be modified")
  else
    match g.validate value with
    | (_, some e) => (g, some e)
    | (sampling, none) =>
      let g1 :=
        if g.lock_gpts then g.adjust_extent g.gpts sampling
        else if g.extent ≠ none then g.adjust_gpts g.extent sampling
        else g.adjust_extent g.gpts sampling
      (g1.adjust_sampling g1.extent g1.gpts, none)

/-- The sampling property setter, with notification. -/
def Grid.samplingSet (g : Grid) (value : Option (List ℚ)) :
    Grid × Option String :=
  Grid.watched (fun g0 => g0.sampling_setter value) g

/-- Grid.__init__. A raised exception is modelled by Except.error; the
changed Event starts with notification counter 0. -/
def Grid.init (extent : Option (List ℚ)) (gpts : Option (List ℤ))
    (sampling : Option (List ℚ)) (dimensions : Nat) (endpoint : Bool)
    (lock_extent : Bool) (lock_gpts : Bool) (lock_sampling : Bool) :
    Except String Grid :=
  if 1 < (cond lock_extent 1 0) + (cond lock_gpts 1 0) + (cond lock_sampling 1 0) then
    Except.error "At most one of extent, gpts, and sampling may be locked"
  else
    let base : Grid :=
      { dimensions := dimensions, endpoint := endpoint,
        lock_extent := lock_extent, lock_gpts := lock_gpts,
        lock_sampling := lock_sampling,
        extent := none, gpts := none, sampling := none, changed := 0 }
    match base.validate extent with
    | (_, some e) => Except.error e
    | (e0, none) =>
      match base.validate gpts with
      | (_, some e) => Except.error e
      | (n0, none) =>
        match base.validate sampling with
        | (_, some e) => Except.error e
        | (s0, none) =>
          let g : Grid := { base with extent := e0, gpts := n0, sampling := s0 }
          let g := if g.extent = none then g.adjust_extent g.gpts g.sampling else g
          let g := if g.gpts = none then g.adjust_gpts g.extent g.sampling else g
          Except.ok (g.adjust_sampling g.extent g.gpts)

/-- Grid.check_match: error when both sides define a differing extent, or
both define differing gpts. -/
def Grid.checkMatch (self other : Grid) : Option String :=
  if self.extent ≠ none ∧ other.extent ≠ none ∧ self.extent ≠ other.extent then
    some "Inconsistent grid extent"
  else if self.gpts ≠ none ∧ other.gpts ≠ none ∧ self.gpts ≠ other.gpts then
    some "Inconsistent grid gpts"
  else none

/-- Body of Grid.match: the extent phase followed by the gpts phase. Each
phase may call a property setter (with its notification) on either side; an
exception in either phase surfaces with all mutations made so far in place. -/
def Grid.match_body (self other : Grid) : Grid × Grid × Option String :=
  let step1 : Grid × Grid × Option String :=
    if self.extent = none ∧ other.extent = none then
      (self, other, some "Grid extent cannot be inferred")
    else if other.extent = none then
      let r := other.extentSet self.extent
      (self, r.1, r.2)
    else if self.extent ≠ other.extent then
      let r := self.extentSet other.extent
      (r.1, other, r.2)
    else (self, other, none)
  match step1 with
  | (s, o, some e) => (s, o, some e)
  | (s, o, none) =>
    if s.gpts = none ∧ o.gpts = none then
      (s, o, some "Grid gpts cannot be inferred")
    else if o.gpts = none then
      let r := o.gptsSet s.gpts
      (s, r.1, r.2)
    else if s.gpts ≠ o.gpts then
      let r := s.gptsSet o.gpts
      (r.1, o, r.2)
    else (s, o, none)

/-- Grid.match(other, check_match). -/
def Grid.matchGrid (self other : Grid) (do_check : Bool) :
    Grid × Grid × Option String :=
  if do_check then
    match self.checkMatch other with
    | some e => (self, other, some e)
    | none => Grid.match_body self other
  else Grid.match_body self other

/-- The Accelerator object; the changed field is the notification counter of
its owned Event. -/
structure Accelerator where
  energy : Option ℚ
  lock_energy : Bool
  changed : Nat
  deriving DecidableEq

/-- Body of the energy setter (before the watched_method wrapper). -/
def Accelerator.energy_setter (a : Accelerator) (value : Option ℚ) :
    Accelerator × Option String :=
  if a.lock_energy then (a, some "Energy cannot be modified")
  else ({ a with energy := value }, none)

/-- The watched_method decorator applied to an Accelerator mutator. -/
def Accelerator.watched (f : Accelerator → Accelerator × Option String)
    (a : Accelerator) : Accelerator × Option String :=
  match f a with
  | (a1, none) => ({ a1 with changed := a1.changed + 1 }, none)
  | (a1, some e) => (a1, some e)

/-- The energy property setter, with notification. -/
def Accelerator.energySet (a : Accelerator) (value : Option ℚ) :
    Accelerator × Option String :=
  Accelerator.watched (fun a0 => a0.energy_setter value) a

/-- Accelerator.check_match. -/
def Accelerator.checkMatch (self other : Accelerator) : Option String :=
  if self.energy ≠ none ∧ other.energy ≠ none ∧ self.energy ≠ other.energy then
    some "Inconsistent energies"
  else none

/-- Body of Accelerator.match: fail when both energies are undefined; when
only the other side is undefined it adopts this energy; otherwise this side
adopts the energy of the other. -/
def Accelerator.match_body (self other : Accelerator) :
    Accelerator × Accelerator × Option String :=
  if self.energy = none ∧ other.energy = none then
    (self, other, some "Energy cannot be inferred")
  else if other.energy = none then
    let r := other.energySet self.energy
    (self, r.1, r.2)
  else
    let r := self.energySet other.energy
    (r.1, other, r.2)

/-- Accelerator.match(other, check_match). -/
def Accelerator.matchAcc (self other : Accelerator) (do_check : Bool) :
    Accelerator × Accelerator × Option String :=
  if do_check then
    match self.checkMatch other with
    | some e => (self, other, some e)
    | none => Accelerator.match_body self other
  else Accelerator.match_body self other

/-- A receiver object owning a Grid and a Cache, the shape the memoization
layer operates on. -/
structure Receiver (K V : Type) where
  grid : Grid
  cache : Cache K V

/-- cached_method: look the key up in the cache of the receiver; on a hit
bump _hits and return the cached value, on a miss compute, insert, and bump
_misses. The returned Bool records whether the underlying function ran. -/
def cached_method {K V : Type} [DecidableEq K] (f : Grid → K → V)
    (r : Receiver K V) (arg : K) : Option V × Receiver K V × Bool :=
  let c := r.cache
  if arg ∈ c.cached.map Prod.fst then
    (c.retrieve arg, { r with cache := { c with _hits := c._hits + 1 } }, false)
  else
    let result := f r.grid arg
    let c1 := c.insert arg result
    (some result, { r with cache := { c1 with _misses := c1._misses + 1 } }, true)

/-- Mutating the grid extent of a receiver that has registered
cache_clear_callback(cache) on the changed Event of its grid: on a
successful set, watched_method notifies with change=True, which runs the
callback and clears the cache; on a failed set no notification fires. -/
def Receiver.setExtentInvalidating {K V : Type} (r : Receiver K V)
    (value : Option (List ℚ)) : Receiver K V × Option String :=
  match r.grid.extentSet value with
  | (g1, none) =>
    ({ grid := g1, cache := cache_clear_callback "extent" true r.cache }, none)
  | (g1, some e) => ({ r with grid := g1 }, some e)

/-! Helper lemmas about the adjustment helpers: which fields they leave
untouched, and their value on defined arguments. -/

theorem adjust_extent_none_left (g : Grid) (s : Option (List ℚ)) :
    g.adjust_extent none s = g := rfl

theorem adjust_extent_none_right (g : Grid) (n : Option (List ℤ)) :
    g.adjust_extent n none = g := by
  cases n <;> rfl

theorem adjust_extent_some (g : Grid) (ns : List ℤ) (ds : List ℚ) :
    g.adjust_extent (some ns) (some ds) =
      { g with extent := some (if g.endpoint then
          List.zipWith (fun (n : ℤ) (d : ℚ) => ((n : ℚ) - 1) * d) ns ds
        else
          List.zipWith (fun (n : ℤ) (d : ℚ) => (n : ℚ) * d) ns ds) } := by
  by_cases h : g.endpoint <;> simp [Grid.adjust_extent, h]

theorem adjust_gpts_none_left (g : Grid) (s : Option (List ℚ)) :
    g.adjust_gpts none s = g := rfl

theorem adjust_gpts_none_right (g : Grid) (e : Option (List ℚ)) :
    g.adjust_gpts e none = g := by
  cases e <;> rfl

theorem adjust_gpts_some (g : Grid) (ls : List ℚ) (ds : List ℚ) :
    g.adjust_gpts (some ls) (some ds) =
      { g with gpts := some (if g.endpoint then
          List.zipWith (fun (l : ℚ) (d : ℚ) => Int.ceil (l / d) + 1) ls ds
        else
          List.zipWith (fun (l : ℚ) (d : ℚ) => Int.ceil (l / d)) ls ds) } := by
  by_cases h : g.endpoint <;> simp [Grid.adjust_gpts, h]

theorem adjust_sampling_none_left (g : Grid) (n : Option (List ℤ)) :
    g.adjust_sampling none n = g := rfl

theorem adjust_sampling_none_right (g : Grid) (e : Option (List ℚ)) :
    g.adjust_sampling e none = g := by
  cases e <;> rfl

theorem adjust_sampling_some (g : Grid) (ls : List ℚ) (ns : List ℤ) :
    g.adjust_sampling (some ls) (some ns) =
      { g with sampling := some (if g.endpoint then
          List.zipWith (fun (l : ℚ) (n : ℤ) => l / ((n : ℚ) - 1)) ls ns
        else
          List.zipWith (fun (l : ℚ) (n : ℤ) => l / (n : ℚ)) ls ns) } := by
  by_cases h : g.endpoint <;> simp [Grid.adjust_sampling, h]

theorem adjust_extent_changed (g : Grid) (n : Option (List ℤ)) (s : Option (List ℚ)) :
    (g.adjust_extent n s).changed = g.changed := by
  cases n with
  | none => rfl
  | some ns =>
    cases s with
    | none => rfl
    | some ds => rw [adjust_extent_some]

theorem adjust_gpts_changed (g : Grid) (e : Option (List ℚ)) (s : Option (List ℚ)) :
    (g.adjust_gpts e s).changed = g.changed := by
  cases e with
  | none => rfl
  | some ls =>
    cases s with
    | none => rfl
    | some ds => rw [adjust_gpts_some]

theorem adjust_sampling_changed (g : Grid) (e : Option (List ℚ)) (n : Option (List ℤ)) :
    (g.adjust_sampling e n).changed = g.changed := by
  cases e with
  | none => rfl
  | some ls =>
    cases n with
    | none => rfl
    | some ns => rw [adjust_sampling_some]

theorem adjust_sampling_extent (g : Grid) (e : Option (List ℚ)) (n : Option (List ℤ)) :
    (g.adjust_sampling e n).extent = g.extent := by
  cases e with
  | none => rfl
  | some ls =>
    cases n with
    | none => rfl
    | some ns => rw [adjust_sampling_some]

theorem adjust_sampling_gpts (g : Grid) (e : Option (List ℚ)) (n : Option (List ℤ)) :
    (g.adjust_sampling e n).gpts = g.gpts := by
  cases e with
  | none => rfl
  | some ls =>
    cases n with
    | none => rfl
    | some ns => rw [adjust_sampling_some]

theorem changed_update_extent (g : Grid) (v : Option (List ℚ)) :
    ({ g with extent := v } : Grid).changed = g.changed := rfl

theorem changed_update_gpts (g : Grid) (v : Option (List ℤ)) :
    ({ g with gpts := v } : Grid).changed = g.changed := rfl

/-- The watched_method wrapper on a mutator that returns normally: the result
is the mutated state with the notification counter bumped once. -/
theorem Grid.watched_ok (f : Grid → Grid × Option String) (g : Grid)
    (h : (f g).2 = none) :
    Grid.watched f g = ({ (f g).1 with changed := (f g).1.changed + 1 }, none) := by
  unfold Grid.watched
  rcases hf : f g with ⟨g1, err⟩
  rw [hf] at h
  simp only at h
  subst h
  rfl

/-- The watched_method wrapper on a mutator that raises: the exception
propagates and no notification fires. -/
theorem Grid.watched_err (f : Grid → Grid × Option String) (g : Grid) (e : String)
    (h : (f g).2 = some e) :
    Grid.watched f g = ((f g).1, some e) := by
  unfold Grid.watched
  rcases hf : f g with ⟨g1, err⟩
  rw [hf] at h
  simp only at h
  subst h
  rfl

/-- C1 (amended): on every successful assignment to an unlocked axis
descriptor, the notification counter of the owning changed Event increments
by exactly one, whether or not the assigned value differs from the current
one; watched_method notifies unconditionally with change=True. -/
theorem unlocked_set_always_increments_notify (g : Grid) :
    (∀ v : Option (List ℚ), g.lock_extent = false → (g.validate v).2 = none →
      (g.extentSet v).2 = none ∧ (g.extentSet v).1.changed = g.changed + 1)
    ∧ (∀ v : Option (List ℤ), g.lock_gpts = false → (g.validate v).2 = none →
      (g.gptsSet v).2 = none ∧ (g.gptsSet v).1.changed = g.changed + 1)
    ∧ (∀ v : Option (List ℚ), g.lock_sampling = false → (g.validate v).2 = none →
      (g.samplingSet v).2 = none ∧ (g.samplingSet v).1.changed = g.changed + 1) := by
  refine ⟨fun v hl hv => ?_, fun v hl hv => ?_, fun v hl hv => ?_⟩
  · have hbody : (g.extent_setter v).2 = none
        ∧ (g.extent_setter v).1.changed = g.changed := by
      unfold Grid.extent_setter
      rcases hval : g.validate v with ⟨val, err⟩
      rw [hval] at hv
      simp only at hv
      subst hv
      rw [hl]
      simp only [Bool.false_eq_true, if_false]
      refine ⟨by trivial, ?_⟩
      rw [changed_update_extent]
      split
      · rw [adjust_sampling_changed, adjust_gpts_changed]
      · rw [adjust_sampling_changed]
    rw [show g.extentSet v = Grid.watched (fun g0 => g0.extent_setter v) g from rfl,
      Grid.watched_ok _ _ hbody.1]
    exact ⟨rfl, by simp [hbody.2]⟩
  · have hbody : (g.gpts_setter v).2 = none
        ∧ (g.gpts_setter v).1.changed = g.changed := by
      unfold Grid.gpts_setter
      rcases hval : g.validate v with ⟨val, err⟩
      rw [hval] at hv
      simp only at hv
      subst hv
      rw [hl]
      simp only [Bool.false_eq_true, if_false]
      refine ⟨by trivial, ?_⟩
      rw [changed_update_gpts]
      split
      · rw [adjust_extent_changed]
      · split
        · rw [adjust_sampling_changed]
        · rw [adjust_extent_changed]
    rw [show g.gptsSet v = Grid.watched (fun g0 => g0.gpts_setter v) g from rfl,
      Grid.watched_ok _ _ hbody.1]
    exact ⟨rfl, by simp [hbody.2]⟩
  · have hbody : (g.sampling_setter v).2 = none
        ∧ (g.sampling_setter v).1.changed = g.changed := by
      unfold Grid.sampling_setter
      rcases hval : g.validate v with ⟨val, err⟩
      rw [hval] at hv
      simp only at hv
      subst hv
      rw [hl]
      simp only [Bool.false_eq_true, if_false]
      refine ⟨by trivial, ?_⟩
      rw [adjust_sampling_changed]
      split
      · rw [adjust_extent_changed]
      · split
        · rw [adjust_gpts_changed]
        · rw [adjust_extent_changed]
    rw [show g.samplingSet v = Grid.watched (fun g0 => g0.sampling_setter v) g from rfl,
      Grid.watched_ok _ _ hbody.1]
    exact ⟨rfl, by simp [hbody.2]⟩

/-- A concrete unlocked grid used for the C1 counterexample. -/
def gridC1 : Grid :=
  { dimensions := 1, endpoint := false, lock_extent := false,
    lock_gpts := false, lock_sampling := false, extent := some [5],
    gpts := some [10], sampling := some [1/2], changed := 0 }

/-- C1 counterexample: assigning the extent its current value (a no-op set,
the externally visible values are unchanged) still increments the
notification counter of the owning Event from 0 to 1, contradicting the
claim that a no-op set must not increment it. -/
theorem noop_set_increments_notify_counterexample :
    (gridC1.extentSet (some [5])).1.extent = gridC1.extent
    ∧ (gridC1.extentSet (some [5])).1.gpts = gridC1.gpts
    ∧ (gridC1.extentSet (some [5])).1.sampling = gridC1.sampling
    ∧ gridC1.changed = 0
    ∧ ¬ (gridC1.extentSet (some [5])).1.changed = gridC1.changed
    ∧ (gridC1.extentSet (some [5])).1.changed = 1 := by
  refine ⟨?_, ?_, ?_, rfl, by decide, by decide⟩ <;>
    simp [gridC1, Grid.extentSet, Grid.watched, Grid.extent_setter, Grid.validate,
      Grid.adjust_gpts, Grid.adjust_sampling, Grid.adjust_extent] <;>
    norm_num

/-- Witness for the amended C1 theorem at a concrete unlocked grid. -/
theorem unlocked_set_always_increments_notify_witness :
    (gridC1.extentSet (some [5])).2 = none
    ∧ (gridC1.extentSet (some [5])).1.changed = gridC1.changed + 1 :=
  (unlocked_set_always_increments_notify gridC1).1 (some [5]) rfl rfl

/-- C6: writing to a locked axis fails with a state error for each of the
three axis kinds independently; the stored grid values and the notification
counter are unchanged (the result state is exactly the input grid). -/
theorem locked_setter_fails (g : Grid) :
    (g.lock_extent = true → ∀ v : Option (List ℚ),
      g.extentSet v = (g, some "Extent cannot be modified"))
    ∧ (g.lock_gpts = true → ∀ v : Option (List ℤ),
      g.gptsSet v = (g, some "Grid gpts cannot be modified"))
    ∧ (g.lock_sampling = true → ∀ v : Option (List ℚ),
      g.samplingSet v = (g, some "Sampling cannot be modified")) := by
  refine ⟨fun h v => ?_, fun h v => ?_, fun h v => ?_⟩
  · simp [Grid.extentSet, Grid.watched, Grid.extent_setter, h]
  · simp [Grid.gptsSet, Grid.watched, Grid.gpts_setter, h]
  · simp [Grid.samplingSet, Grid.watched, Grid.sampling_setter, h]

/-- A grid with the extent locked, for the C6 witness. -/
def gridLockedExtent : Grid :=
  { dimensions := 1, endpoint := false, lock_extent := true,
    lock_gpts := false, lock_sampling := false, extent := some [5],
    gpts := some [10], sampling := some [1/2], changed := 0 }

/-- A grid with the gpts locked, for the C6 witness. -/
def gridLockedGpts : Grid :=
  { gridLockedExtent with lock_extent := false, lock_gpts := true }

/-- A grid with the sampling locked, for the C6 witness. -/
def gridLockedSampling : Grid :=
  { gridLockedExtent with lock_extent := false, lock_sampling := true }

/-- Witness for C6 at three concrete grids, one per locked axis. -/
theorem locked_setter_fails_witness :
    gridLockedExtent.extentSet (some [7])
      = (gridLockedExtent, some "Extent cannot be modified")
    ∧ gridLockedGpts.gptsSet (some [7])
      = (gridLockedGpts, some "Grid gpts cannot be modified")
    ∧ gridLockedSampling.samplingSet (some [7])
      = (gridLockedSampling, some "Sampling cannot be modified") :=
  ⟨(locked_setter_fails gridLockedExtent).1 rfl (some [7]),
   (locked_setter_fails gridLockedGpts).2.1 rfl (some [7]),
   (locked_setter_fails gridLockedSampling).2.2 rfl (some [7])⟩

/-- C7: a callback produced by cache_clear_callback, invoked through an Event
notification, empties the target cache (and zeroes its counters) when the
notified change flag is true, and leaves the cache untouched when the flag is
false; the notification counter increments either way. -/
theorem cache_clear_callback_clears_iff_change {K V : Type} (e : Event K V)
    (c : Cache K V) (p : String) (h : e.callbacks = [cache_clear_callback]) :
    (e.notify p true c).2.cached = []
    ∧ (e.notify p true c).2._hits = 0
    ∧ (e.notify p true c).2._misses = 0
    ∧ (e.notify p false c).2 = c
    ∧ (e.notify p true c).1._notify_count = e._notify_count + 1
    ∧ (e.notify p false c).1._notify_count = e._notify_count + 1 := by
  simp [Event.notify, h, cache_clear_callback, Cache.clear]

/-- Witness for C7: a concrete event with the clear callback registered and a
concrete nonempty cache. -/
theorem cache_clear_callback_clears_iff_change_witness :
    ((Event.mk [cache_clear_callback] 0 : Event Nat Nat).notify "extent" true
        (Cache.mk (some 2) [(1, 1)] 3 4)).2.cached = []
    ∧ ((Event.mk [cache_clear_callback] 0 : Event Nat Nat).notify "extent" true
        (Cache.mk (some 2) [(1, 1)] 3 4)).2._hits = 0
    ∧ ((Event.mk [cache_clear_callback] 0 : Event Nat Nat).notify "extent" true
        (Cache.mk (some 2) [(1, 1)] 3 4)).2._misses = 0
    ∧ ((Event.mk [cache_clear_callback] 0 : Event Nat Nat).notify "extent" false
        (Cache.mk (some 2) [(1, 1)] 3 4)).2 = Cache.mk (some 2) [(1, 1)] 3 4
    ∧ ((Event.mk [cache_clear_callback] 0 : Event Nat Nat).notify "extent" true
        (Cache.mk (some 2) [(1, 1)] 3 4)).1._notify_count = 0 + 1
    ∧ ((Event.mk [cache_clear_callback] 0 : Event Nat Nat).notify "extent" false
        (Cache.mk (some 2) [(1, 1)] 3 4)).1._notify_count = 0 + 1 :=
  cache_clear_callback_clears_iff_change _ _ "extent" rfl

/-- C9: a grid constructed with only gpts and sampling defined derives
extent = gpts * sampling elementwise when the endpoint is excluded, and
extent = (gpts - 1) * sampling elementwise when the endpoint is included.
The positivity hypotheses delimit the domain on which the Python source,
whose sampling re-derivation divides by gpts (or gpts - 1), does not raise
ZeroDivisionError. -/
theorem grid_init_extent_from_gpts_sampling (ns : List ℤ) (ds : List ℚ)
    (dims : Nat) (hn : ns.length = dims) (hd : ds.length = dims) :
    ((∀ n ∈ ns, 1 ≤ n) →
      (Grid.init none (some ns) (some ds) dims false false false false).map Grid.extent
        = Except.ok (some (List.zipWith (fun (n : ℤ) (d : ℚ) => (n : ℚ) * d) ns ds)))
    ∧ ((∀ n ∈ ns, 2 ≤ n) →
      (Grid.init none (some ns) (some ds) dims true false false false).map Grid.extent
        = Except.ok (some (List.zipWith (fun (n : ℤ) (d : ℚ) => ((n : ℚ) - 1) * d) ns ds))) := by
  constructor <;> intro _ <;>
    simp [Grid.init, Grid.validate, hn, hd, adjust_extent_some,
      adjust_sampling_extent, Except.map]

/-- C2 (amended): on a Grid with sampling locked and defined, assigning a new
extent first recomputes gpts from the new extent and the locked sampling, and
then re-derives sampling from the new extent and the recomputed gpts; the
stored sampling is therefore not preserved in general. -/
theorem lock_sampling_extent_set_rederives_sampling (g : Grid) (es ds : List ℚ)
    (hlock : g.lock_sampling = true) (hle : g.lock_extent = false)
    (hs : g.sampling = some ds) (hlen : es.length = g.dimensions) :
    (g.extentSet (some es)).2 = none
    ∧ (g.extentSet (some es)).1.extent = some es
    ∧ (g.extentSet (some es)).1.gpts = some (if g.endpoint then
        List.zipWith (fun (l : ℚ) (d : ℚ) => Int.ceil (l / d) + 1) es ds
      else List.zipWith (fun (l : ℚ) (d : ℚ) => Int.ceil (l / d)) es ds)
    ∧ ∀ ns : List ℤ, (g.extentSet (some es)).1.gpts = some ns →
        (g.extentSet (some es)).1.sampling = some (if g.endpoint then
          List.zipWith (fun (l : ℚ) (n : ℤ) => l / ((n : ℚ) - 1)) es ns
        else List.zipWith (fun (l : ℚ) (n : ℤ) => l / (n : ℚ)) es ns) := by
  by_cases hep : g.endpoint <;>
    simp only [Grid.extentSet, Grid.watched, Grid.extent_setter, hle, hlock, hep,
      Bool.false_eq_true, if_false, true_or, if_true, Grid.validate, hlen,
      hs, adjust_gpts_some, adjust_sampling_some] <;>
    refine ⟨trivial, trivial, trivial, fun ns hns => ?_⟩ <;>
    · injection hns with h
      subst h
      trivial

/-- The grid of the C2 counterexample: constructed with only sampling given,
with lock_sampling=True, in one dimension. -/
def gridC2 : Grid :=
  { dimensions := 1, endpoint := false, lock_extent := false,
    lock_gpts := false, lock_sampling := true, extent := none, gpts := none,
    sampling := some [3], changed := 0 }

/-- C2 counterexample: a grid constructed with locked sampling 3; assigning
extent 10 recomputes gpts = ceil(10/3) = 4 and then re-derives sampling to
10/4 = 5/2, so the locked sampling value is changed by the assignment,
contradicting the claim that it is unchanged. -/
theorem lock_sampling_mutated_counterexample :
    Grid.init none none (some [3]) 1 false false false true = Except.ok gridC2
    ∧ (gridC2.extentSet (some [10])).2 = none
    ∧ (gridC2.extentSet (some [10])).1.gpts = some [4]
    ∧ (gridC2.extentSet (some [10])).1.sampling = some [5/2]
    ∧ ¬ (gridC2.extentSet (some [10])).1.sampling = gridC2.sampling := by
  have hceil : Int.ceil ((10 : ℚ) / 3) = 4 := by norm_num [Int.ceil_eq_iff]
  refine ⟨?_, ?_, ?_, ?_, ?_⟩ <;>
    simp [gridC2, Grid.init, Grid.extentSet, Grid.watched, Grid.extent_setter,
      Grid.validate, Grid.adjust_gpts, Grid.adjust_sampling, Grid.adjust_extent,
      adjust_extent_none_left, adjust_extent_none_right, adjust_gpts_none_left,
      adjust_gpts_none_right, adjust_sampling_none_left, adjust_sampling_none_right,
      hceil] <;>
    norm_num

/-- Witness for the amended C2 theorem at the concrete locked-sampling grid. -/
theorem lock_sampling_extent_set_rederives_sampling_witness :
    (gridC2.extentSet (some [10])).2 = none
    ∧ (gridC2.extentSet (some [10])).1.extent = some [10]
    ∧ (gridC2.extentSet (some [10])).1.gpts = some (if gridC2.endpoint then
        List.zipWith (fun (l : ℚ) (d : ℚ) => Int.ceil (l / d) + 1) [10] [3]
      else List.zipWith (fun (l : ℚ) (d : ℚ) => Int.ceil (l / d)) [10] [3])
    ∧ ∀ ns : List ℤ, (gridC2.extentSet (some [10])).1.gpts = some ns →
        (gridC2.extentSet (some [10])).1.sampling = some (if gridC2.endpoint then
          List.zipWith (fun (l : ℚ) (n : ℤ) => l / ((n : ℚ) - 1)) [10] ns
        else List.zipWith (fun (l : ℚ) (n : ℤ) => l / (n : ℚ)) [10] ns) :=
  lock_sampling_extent_set_rederives_sampling gridC2 [10] [3] rfl rfl rfl rfl

/-- C5: Grid.match. First part: when this grid has extent defined but gpts
undefined and the other grid is fully undefined, match fails with the state
error that gpts cannot be inferred. Second part: when both grids have extent
and gpts defined and differing, this grid adopts the extent and gpts of the
other (the other grid is authoritative) and the other grid is unchanged. -/
theorem grid_match_directionality :
    (∀ (A B : Grid) (e : List ℚ), A.extent = some e → A.gpts = none →
      B.extent = none → B.gpts = none → B.sampling = none →
      B.lock_extent = false → e.length = B.dimensions →
      (Grid.matchGrid A B false).2.2 = some "Grid gpts cannot be inferred")
    ∧ (∀ (A B : Grid) (ea eb : List ℚ) (na nb : List ℤ),
      A.extent = some ea → A.gpts = some na →
      B.extent = some eb → B.gpts = some nb →
      ea ≠ eb → na ≠ nb →
      A.lock_extent = false → A.lock_gpts = false → A.lock_sampling = false →
      eb.length = A.dimensions → nb.length = A.dimensions →
      (Grid.matchGrid A B false).2.2 = none
      ∧ (Grid.matchGrid A B false).1.extent = some eb
      ∧ (Grid.matchGrid A B false).1.gpts = some nb
      ∧ (Grid.matchGrid A B false).2.1 = B) := by
  constructor
  · intro A B e hAe hAg hBe hBg hBs hBl hlen
    simp [Grid.matchGrid, Grid.match_body, Grid.extentSet, Grid.watched,
      Grid.extent_setter, Grid.validate, hAe, hAg, hBe, hBg, hBs, hBl, hlen,
      adjust_gpts_none_right, adjust_sampling_none_right]
  · intro A B ea eb na nb hAe hAg hBe hBg hne hnn hle hlg hls hlene hlenn
    simp [Grid.matchGrid, Grid.match_body, Grid.extentSet, Grid.gptsSet,
      Grid.watched, Grid.extent_setter, Grid.gpts_setter, Grid.validate,
      hAe, hAg, hBe, hBg, hne, hnn, hle, hlg, hls, hlene, hlenn,
      adjust_sampling_some]

/-- Concrete grids for the C5 and C10 witnesses: mA has extent defined and
gpts undefined; mB is fully undefined. -/
def gridMA : Grid :=
  { dimensions := 2, endpoint := false, lock_extent := false,
    lock_gpts := false, lock_sampling := false, extent := some [10, 10],
    gpts := none, sampling := none, changed := 0 }

def gridMB : Grid :=
  { dimensions := 2, endpoint := false, lock_extent := false,
    lock_gpts := false, lock_sampling := false, extent := none,
    gpts := none, sampling := none, changed := 0 }

/-- Concrete grids for the C5 witness: both extent and gpts defined and
differing. -/
def gridMC : Grid :=
  { dimensions := 2, endpoint := false, lock_extent := false,
    lock_gpts := false, lock_sampling := false, extent := some [10, 10],
    gpts := some [100, 100], sampling := some [1/10, 1/10], changed := 0 }

def gridMD : Grid :=
  { dimensions := 2, endpoint := false, lock_extent := false,
    lock_gpts := false, lock_sampling := false, extent := some [20, 20],
    gpts := some [50, 50], sampling := some [2/5, 2/5], changed := 0 }

/-- Witness for C5 at concrete grids, for both parts of the claim. -/
theorem grid_match_directionality_witness :
    (Grid.matchGrid gridMA gridMB false).2.2 = some "Grid gpts cannot be inferred"
    ∧ ((Grid.matchGrid gridMC gridMD false).2.2 = none
      ∧ (Grid.matchGrid gridMC gridMD false).1.extent = some [20, 20]
      ∧ (Grid.matchGrid gridMC gridMD false).1.gpts = some [50, 50]
      ∧ (Grid.matchGrid gridMC gridMD false).2.1 = gridMD) :=
  ⟨grid_match_directionality.1 gridMA gridMB [10, 10] rfl rfl rfl rfl rfl rfl rfl,
   grid_match_directionality.2 gridMC gridMD [10, 10] [20, 20] [100, 100] [50, 50]
     rfl rfl rfl rfl (by decide) (by decide) rfl rfl rfl rfl rfl⟩

/-- C10: Grid.match is not atomic on failure. In the scenario of the first
part of C5 (this grid has extent defined and gpts undefined, the other is
fully undefined), the gpts-cannot-be-inferred error surfaces only after the
extent phase completed: at the error the other grid already carries the
extent of this grid and its changed Event has been notified once, while this
grid is untouched. -/
theorem grid_match_not_atomic (A B : Grid) (e : List ℚ)
    (hAe : A.extent = some e) (hAg : A.gpts = none)
    (hBe : B.extent = none) (hBg : B.gpts = none) (hBs : B.sampling = none)
    (hBl : B.lock_extent = false) (hlen : e.length = B.dimensions) :
    (Grid.matchGrid A B false).2.2 = some "Grid gpts cannot be inferred"
    ∧ (Grid.matchGrid A B false).2.1.extent = some e
    ∧ (Grid.matchGrid A B false).2.1.changed = B.changed + 1
    ∧ (Grid.matchGrid A B false).1 = A := by
  simp [Grid.matchGrid, Grid.match_body, Grid.extentSet, Grid.watched,
    Grid.extent_setter, Grid.validate, hAe, hAg, hBe, hBg, hBs, hBl, hlen,
    adjust_gpts_none_right, adjust_sampling_none_right]

/-- Witness for C10 at the concrete grids of the C5 scenario. -/
theorem grid_match_not_atomic_witness :
    (Grid.matchGrid gridMA gridMB false).2.2 = some "Grid gpts cannot be inferred"
    ∧ (Grid.matchGrid gridMA gridMB false).2.1.extent = some [10, 10]
    ∧ (Grid.matchGrid gridMA gridMB false).2.1.changed = gridMB.changed + 1
    ∧ (Grid.matchGrid gridMA gridMB false).1 = gridMA :=
  grid_match_not_atomic gridMA gridMB [10, 10] rfl rfl rfl rfl rfl rfl rfl

/-- C8: Accelerator.match. If both energies are undefined it fails with a
state error; if only the other energy is undefined the other adopts this
energy; otherwise this accelerator adopts the energy of the other (the other
side is authoritative). After one successful match, repeating the same match
succeeds and changes neither stored energy. -/
theorem accelerator_match_directionality :
    (∀ A B : Accelerator, A.energy = none → B.energy = none →
      Accelerator.matchAcc A B false = (A, B, some "Energy cannot be inferred"))
    ∧ (∀ (A B : Accelerator) (e : ℚ), A.energy = some e → B.energy = none →
      B.lock_energy = false →
      (Accelerator.matchAcc A B false).2.2 = none
      ∧ (Accelerator.matchAcc A B false).1 = A
      ∧ (Accelerator.matchAcc A B false).2.1.energy = some e)
    ∧ (∀ (A B : Accelerator) (e : ℚ), B.energy = some e → A.lock_energy = false →
      (Accelerator.matchAcc A B false).2.2 = none
      ∧ (Accelerator.matchAcc A B false).1.energy = some e
      ∧ (Accelerator.matchAcc A B false).2.1 = B)
    ∧ (∀ A B : Accelerator, A.lock_energy = false → B.lock_energy = false →
      (Accelerator.matchAcc A B false).2.2 = none →
      (Accelerator.matchAcc (Accelerator.matchAcc A B false).1
          (Accelerator.matchAcc A B false).2.1 false).2.2 = none
      ∧ (Accelerator.matchAcc (Accelerator.matchAcc A B false).1
          (Accelerator.matchAcc A B false).2.1 false).1.energy
        = (Accelerator.matchAcc A B false).1.energy
      ∧ (Accelerator.matchAcc (Accelerator.matchAcc A B false).1
          (Accelerator.matchAcc A B false).2.1 false).2.1.energy
        = (Accelerator.matchAcc A B false).2.1.energy) := by
  refine ⟨fun A B hA hB => ?_, fun A B e hA hB hBl => ?_,
    fun A B e hB hAl => ?_, fun A B hAl hBl herr => ?_⟩
  · simp [Accelerator.matchAcc, Accelerator.match_body, hA, hB]
  · simp [Accelerator.matchAcc, Accelerator.match_body, Accelerator.energySet,
      Accelerator.watched, Accelerator.energy_setter, hA, hB, hBl]
  · simp [Accelerator.matchAcc, Accelerator.match_body, Accelerator.energySet,
      Accelerator.watched, Accelerator.energy_setter, hB, hAl]
  · rcases hB : B.energy with _ | e
    · rcases hA : A.energy with _ | a
      · exfalso
        rw [show Accelerator.matchAcc A B false
            = (A, B, some "Energy cannot be inferred") from by
          simp [Accelerator.matchAcc, Accelerator.match_body, hA, hB]] at herr
        simp at herr
      · simp [Accelerator.matchAcc, Accelerator.match_body, Accelerator.energySet,
          Accelerator.watched, Accelerator.energy_setter, hA, hB, hAl, hBl]
    · simp [Accelerator.matchAcc, Accelerator.match_body, Accelerator.energySet,
        Accelerator.watched, Accelerator.energy_setter, hB, hAl, hBl]

/-- Concrete accelerators for the C8 witness. -/
def accC8A : Accelerator := { energy := some 80000, lock_energy := false, changed := 0 }

def accC8B : Accelerator := { energy := some 200000, lock_energy := false, changed := 0 }

def accC8N : Accelerator := { energy := none, lock_energy := false, changed := 0 }

/-- Witness for C8 at concrete accelerators, exercising all four parts. -/
theorem accelerator_match_directionality_witness :
    Accelerator.matchAcc accC8N accC8N false
      = (accC8N, accC8N, some "Energy cannot be inferred")
    ∧ ((Accelerator.matchAcc accC8A accC8N false).2.2 = none
      ∧ (Accelerator.matchAcc accC8A accC8N false).1 = accC8A
      ∧ (Accelerator.matchAcc accC8A accC8N false).2.1.energy = some 80000)
    ∧ ((Accelerator.matchAcc accC8A accC8B false).2.2 = none
      ∧ (Accelerator.matchAcc accC8A accC8B false).1.energy = some 200000
      ∧ (Accelerator.matchAcc accC8A accC8B false).2.1 = accC8B)
    ∧ ((Accelerator.matchAcc (Accelerator.matchAcc accC8A accC8B false).1
          (Accelerator.matchAcc accC8A accC8B false).2.1 false).2.2 = none
      ∧ (Accelerator.matchAcc (Accelerator.matchAcc accC8A accC8B false).1
          (Accelerator.matchAcc accC8A accC8B false).2.1 false).1.energy
        = (Accelerator.matchAcc accC8A accC8B false).1.energy
      ∧ (Accelerator.matchAcc (Accelerator.matchAcc accC8A accC8B false).1
          (Accelerator.matchAcc accC8A accC8B false).2.1 false).2.1.energy
        = (Accelerator.matchAcc accC8A accC8B false).2.1.energy) :=
  ⟨accelerator_match_directionality.1 accC8N accC8N rfl rfl,
   accelerator_match_directionality.2.1 accC8A accC8N 80000 rfl rfl rfl,
   accelerator_match_directionality.2.2.1 accC8A accC8B 200000 rfl rfl,
   accelerator_match_directionality.2.2.2 accC8A accC8B rfl rfl (by decide)⟩

/-- Witness for C9 at concrete gpts and sampling, in both endpoint modes. -/
theorem grid_init_extent_from_gpts_sampling_witness :
    ((1 : ℤ) ∈ ([4, 5] : List ℤ) → False)
    ∧ (Grid.init none (some [4, 5]) (some [1/2, 1/2]) 2 false false false false).map
        Grid.extent = Except.ok (some [2, 5/2])
    ∧ (Grid.init none (some [4, 5]) (some [1/2, 1/2]) 2 true false false false).map
        Grid.extent = Except.ok (some [3/2, 2]) := by
  refine ⟨by decide, ?_, ?_⟩
  · have h := (grid_init_extent_from_gpts_sampling [4, 5] [1/2, 1/2] 2 rfl rfl).1
      (by decide)
    rw [h]
    norm_num
  · have h := (grid_init_extent_from_gpts_sampling [4, 5] [1/2, 1/2] 2 rfl rfl).2
      (by decide)
    rw [h]
    norm_num

theorem popOldestWhileOver_eq_drop {K V : Type} (m : Nat) (l : List (K × V)) :
    popOldestWhileOver m l = l.drop (l.length - m) := by
  induction l with
  | nil => simp [popOldestWhileOver]
  | cons x xs ih =>
    unfold popOldestWhileOver
    by_cases h : m < (x :: xs).length
    · rw [if_pos h, ih]
      have hlen : (x :: xs).length - m = (xs.length - m) + 1 := by
        simp only [List.length_cons] at h ⊢
        omega
      rw [hlen, List.drop_succ_cons]
    · rw [if_neg h]
      have hz : (x :: xs).length - m = 0 := by
        simp only [List.length_cons] at h ⊢
        omega
      rw [hz, List.drop_zero]

theorem odAssign_not_mem {K V : Type} [DecidableEq K] (l : List (K × V))
    (k : K) (v : V) (h : k ∉ l.map Prod.fst) :
    odAssign l k v = l ++ [(k, v)] := by
  simp [odAssign, h]

theorem odAssign_mem_keys {K V : Type} [DecidableEq K] (l : List (K × V))
    (k : K) (v : V) (h : k ∈ l.map Prod.fst) :
    (odAssign l k v).map Prod.fst = l.map Prod.fst
    ∧ (odAssign l k v).length = l.length := by
  constructor
  · rw [odAssign, if_pos h, List.map_map]
    refine List.map_congr_left fun p _ => ?_
    by_cases hp : p.1 = k <;> simp [hp]
  · rw [odAssign, if_pos h, List.length_map]

theorem insert_max_size {K V : Type} [DecidableEq K] (c : Cache K V)
    (k : K) (v : V) : (c.insert k v).max_size = c.max_size := by
  obtain ⟨ms, l, h1, h2⟩ := c
  cases ms <;> rfl

theorem insert_length_le {K V : Type} [DecidableEq K] (c : Cache K V)
    (k : K) (v : V) (m : Nat) (hm : c.max_size = some m) :
    (c.insert k v).cached.length ≤ m := by
  obtain ⟨ms, l, h1, h2⟩ := c
  simp only at hm
  subst hm
  simp [Cache.insert, Cache.check_size, popOldestWhileOver_eq_drop, List.length_drop]
  omega

theorem insert_fresh_cached {K V : Type} [DecidableEq K] (c : Cache K V)
    (k : K) (v : V) (m : Nat) (hm : c.max_size = some m)
    (hk : k ∉ c.cached.map Prod.fst) :
    (c.insert k v).cached = (c.cached ++ [(k, v)]).drop ((c.cached.length + 1) - m) := by
  obtain ⟨ms, l, h1, h2⟩ := c
  simp only at hm hk
  subst hm
  simp [Cache.insert, Cache.check_size, odAssign_not_mem l k v hk,
    popOldestWhileOver_eq_drop]

theorem insert_mem_keys {K V : Type} [DecidableEq K] (c : Cache K V)
    (k : K) (v : V) (m : Nat) (hm : c.max_size = some m)
    (hlen : c.cached.length ≤ m) (hk : k ∈ c.cached.map Prod.fst) :
    (c.insert k v).cached.map Prod.fst = c.cached.map Prod.fst
    ∧ (c.insert k v).cached.length = c.cached.length := by
  obtain ⟨ms, l, h1, h2⟩ := c
  simp only at hm hk hlen
  subst hm
  have hkeys := odAssign_mem_keys l k v hk
  have hz : (odAssign l k v).length - m = 0 := by omega
  have hz2 : l.length - m = 0 := by omega
  constructor <;>
    simp [Cache.insert, Cache.check_size, popOldestWhileOver_eq_drop, hz, hz2,
      hkeys.1, hkeys.2]

theorem drop_append_drop {α : Type} (A B : List α) (j i : Nat) (hj : j ≤ A.length) :
    (A.drop j ++ B).drop i = (A ++ B).drop (i + j) := by
  rw [← List.drop_append_of_le_length hj, List.drop_drop, Nat.add_comm]

theorem insertAll_fresh_cached {K V : Type} [DecidableEq K] (kvs : List (K × V)) :
    ∀ (c : Cache K V) (m : Nat), c.max_size = some m →
      (c.cached.map Prod.fst ++ kvs.map Prod.fst).Nodup →
      c.cached.length ≤ m →
      (Cache.insertAll c kvs).cached
        = (c.cached ++ kvs).drop ((c.cached.length + kvs.length) - m) := by
  induction kvs with
  | nil =>
    intro c m hm hnd hlen
    simp only [Cache.insertAll, List.foldl_nil, List.append_nil, List.length_nil,
      Nat.add_zero]
    have h0 : c.cached.length - m = 0 := by omega
    rw [h0, List.drop_zero]
  | cons kv rest ih =>
    intro c m hm hnd hlen
    obtain ⟨k, v⟩ := kv
    have hnd0 : (c.cached.map Prod.fst ++ (k :: rest.map Prod.fst)).Nodup := by
      simpa using hnd
    have hkfresh : k ∉ c.cached.map Prod.fst := by
      intro hmem
      exact (List.nodup_append.mp hnd0).2.2 hmem
        (List.mem_cons_self k (rest.map Prod.fst))
    have hc1 : (c.insert k v).cached
        = (c.cached ++ [(k, v)]).drop ((c.cached.length + 1) - m) :=
      insert_fresh_cached c k v m hm hkfresh
    have hc1m : (c.insert k v).max_size = some m := by rw [insert_max_size, hm]
    have hc1len : (c.insert k v).cached.length ≤ m := insert_length_le c k v m hm
    have hc1nd : ((c.insert k v).cached.map Prod.fst ++ rest.map Prod.fst).Nodup := by
      have hsub : (c.insert k v).cached.map Prod.fst ++ rest.map Prod.fst
          |>.Sublist ((c.cached ++ [(k, v)]).map Prod.fst ++ rest.map Prod.fst) := by
        refine List.Sublist.append_right ?_ _
        rw [hc1, List.map_drop]
        exact List.drop_sublist _ _
      refine hsub.nodup ?_
      have : (c.cached ++ [(k, v)]).map Prod.fst ++ rest.map Prod.fst
          = c.cached.map Prod.fst ++ (k :: rest.map Prod.fst) := by
        simp
      rw [this]
      exact hnd0
    have hstep : Cache.insertAll c ((k, v) :: rest)
        = Cache.insertAll (c.insert k v) rest := rfl
    have hj : c.cached.length + 1 - m ≤ (c.cached ++ [(k, v)]).length := by
      simp
    rw [hstep, ih _ m hc1m hc1nd hc1len, hc1, drop_append_drop _ _ _ _ hj,
      List.append_assoc, List.singleton_append]
    congr 1
    simp only [List.length_drop, List.length_append, List.length_cons,
      List.length_singleton, List.length_nil]
    omega

/-- C4: FIFO eviction. Inserting k+1 distinct keys into a fresh Cache of
max_size k leaves exactly k entries: the surviving entries are the last k
inserted pairs in insertion order, so the entry inserted first is the one
evicted. The length bound len(cache) <= max_size holds after every insert of
the sequence. Re-inserting an already-present key into a cache within its
bound changes neither the key order nor the length, so eviction order is
insertion order, not recency of use. -/
theorem cache_fifo_eviction {K V : Type} [DecidableEq K] (k : Nat)
    (keys : List K) (vals : List V) (hk : keys.length = k + 1)
    (hv : vals.length = k + 1) (hnd : keys.Nodup) :
    ((Cache.fresh K V (some k)).insertAll (keys.zip vals)).cached
      = (keys.zip vals).drop 1
    ∧ ((Cache.fresh K V (some k)).insertAll (keys.zip vals)).cached.length = k
    ∧ ((Cache.fresh K V (some k)).insertAll (keys.zip vals)).cached.map Prod.fst
      = keys.drop 1
    ∧ (∀ i : Nat,
        ((Cache.fresh K V (some k)).insertAll ((keys.zip vals).take i)).cached.length
          ≤ k)
    ∧ (∀ (c : Cache K V) (m : Nat) (key : K) (v : V), c.max_size = some m →
        c.cached.length ≤ m → key ∈ c.cached.map Prod.fst →
        (c.insert key v).cached.map Prod.fst = c.cached.map Prod.fst
        ∧ (c.insert key v).cached.length = c.cached.length) := by
  have hzlen : (keys.zip vals).length = k + 1 := by
    rw [List.length_zip, hk, hv]
    omega
  have hzkeys : (keys.zip vals).map Prod.fst = keys :=
    List.map_fst_zip keys vals (by omega)
  have hmain : ((Cache.fresh K V (some k)).insertAll (keys.zip vals)).cached
      = (keys.zip vals).drop 1 := by
    have h := insertAll_fresh_cached (keys.zip vals) (Cache.fresh K V (some k)) k
      rfl (by simpa [Cache.fresh, hzkeys] using hnd) (by simp [Cache.fresh])
    simpa [Cache.fresh, hzlen] using h
  refine ⟨hmain, ?_, ?_, ?_, ?_⟩
  · rw [hmain, List.length_drop, hzlen]
    omega
  · rw [hmain, List.map_drop, hzkeys]
  · intro i
    have hti : ((keys.zip vals).take i).map Prod.fst = keys.take i := by
      rw [List.map_take, hzkeys]
    have h := insertAll_fresh_cached ((keys.zip vals).take i)
      (Cache.fresh K V (some k)) k rfl
      (by simpa [Cache.fresh, hti] using hnd.sublist (List.take_sublist i keys))
      (by simp [Cache.fresh])
    have hlen := congrArg List.length h
    simp only [List.length_drop] at hlen
    rw [hlen]
    simp only [Cache.fresh, List.length_nil, List.length_append, List.length_take,
      Nat.zero_add]
    omega
  · intro c m key v hm hlen hkey
    exact insert_mem_keys c key v m hm hlen hkey

theorem extentSet_ok (g : Grid) (v : Option (List ℚ)) (hl : g.lock_extent = false)
    (hv : (g.validate v).2 = none) : (g.extentSet v).2 = none := by
  have hbody : (g.extent_setter v).2 = none := by
    unfold Grid.extent_setter
    rcases hval : g.validate v with ⟨val, err⟩
    rw [hval] at hv
    simp only at hv
    subst hv
    simp [hl]
  rw [show g.extentSet v = Grid.watched (fun g0 => g0.extent_setter v) g from rfl,
    Grid.watched_ok _ _ hbody]

def memoR0 (K V : Type) [DecidableEq K] (g : Grid) (m : Nat) : Receiver K V :=
  { grid := g, cache := Cache.fresh K V (some m) }

def memoR1 {K V : Type} [DecidableEq K] (f : Grid → K → V) (g : Grid) (m : Nat)
    (arg : K) : Receiver K V :=
  (cached_method f (memoR0 K V g m) arg).2.1

def memoR2 {K V : Type} [DecidableEq K] (f : Grid → K → V) (g : Grid) (m : Nat)
    (arg : K) : Receiver K V :=
  (cached_method f (memoR1 f g m arg) arg).2.1

def memoR3 {K V : Type} [DecidableEq K] (f : Grid → K → V) (g : Grid) (m : Nat)
    (arg : K) (newExtent : List ℚ) : Receiver K V :=
  ((memoR2 f g m arg).setExtentInvalidating (some newExtent)).1

def memoR4 {K V : Type} [DecidableEq K] (f : Grid → K → V) (g : Grid) (m : Nat)
    (arg : K) (newExtent : List ℚ) : Receiver K V :=
  (cached_method f (memoR3 f g m arg newExtent) arg).2.1

/-- C3 (amended): memoization scenario on a receiver with a fresh cache of
capacity m >= 1. The first call computes the underlying operation, the second
call with the same argument is served from the cache; after the second call
the hit counter is 1, the underlying miss counter is 1, and the misses
property also reports 1 (it returns the hit counter, as in the source).
Mutating the grid of the receiver through the extent setter with the
standard invalidation callback registered empties the cache AND zeroes both
counters, so the third call recomputes, after which the underlying miss
counter is 1 and the misses property reports 0 (the hit counter), not 2 as
the original claim states. -/
theorem cached_method_invalidation_behavior {K V : Type} [DecidableEq K]
    (f : Grid → K → V) (g : Grid) (arg : K) (m : Nat) (newExtent : List ℚ)
    (hm : 1 ≤ m) (hlock : g.lock_extent = false)
    (hlen : newExtent.length = g.dimensions) :
    (cached_method f (memoR0 K V g m) arg).2.2 = true
    ∧ (cached_method f (memoR1 f g m arg) arg).2.2 = false
    ∧ (memoR2 f g m arg).cache.hits = 1
    ∧ (memoR2 f g m arg).cache.misses = 1
    ∧ (memoR2 f g m arg).cache._misses = 1
    ∧ ((memoR2 f g m arg).setExtentInvalidating (some newExtent)).2 = none
    ∧ (memoR3 f g m arg newExtent).cache.cached = []
    ∧ (cached_method f (memoR3 f g m arg newExtent) arg).2.2 = true
    ∧ (memoR4 f g m arg newExtent).cache.misses = 0
    ∧ (memoR4 f g m arg newExtent).cache._misses = 1
    ∧ (memoR4 f g m arg newExtent).cache._hits = 0 := by
  have hm1 : ¬ (m < 1) := by omega
  have h1 : memoR1 f g m arg
      = ⟨g, ⟨some m, [(arg, f g arg)], 0, 1⟩⟩ := by
    simp [memoR1, memoR0, cached_method, Cache.fresh, Cache.insert,
      Cache.check_size, odAssign, popOldestWhileOver, hm1]
  have h2 : memoR2 f g m arg
      = ⟨g, ⟨some m, [(arg, f g arg)], 1, 1⟩⟩ := by
    rw [memoR2, h1]
    simp [cached_method]
  have hvd : (g.validate (some newExtent)).2 = none := by
    simp [Grid.validate, hlen]
  have hset : (g.extentSet (some newExtent)).2 = none := extentSet_ok g _ hlock hvd
  have h3 : memoR3 f g m arg newExtent
      = ⟨(g.extentSet (some newExtent)).1, ⟨some m, [], 0, 0⟩⟩ := by
    rw [memoR3, h2]
    unfold Receiver.setExtentInvalidating
    rcases hge : Grid.extentSet g (some newExtent) with ⟨g1, err⟩
    rw [hge] at hset
    simp only at hset
    subst hset
    simp [cache_clear_callback, Cache.clear]
  have h4 : memoR4 f g m arg newExtent
      = ⟨(g.extentSet (some newExtent)).1,
         ⟨some m, [(arg, f (g.extentSet (some newExtent)).1 arg)], 0, 1⟩⟩ := by
    rw [memoR4, h3]
    simp [cached_method, Cache.insert, Cache.check_size, odAssign,
      popOldestWhileOver, hm1]
  refine ⟨?_, ?_, ?_, ?_, ?_, ?_, ?_, ?_, ?_, ?_, ?_⟩
  · simp [cached_method, memoR0, Cache.fresh]
  · rw [h1]
    simp [cached_method]
  · rw [h2]
    try rfl
  · rw [h2]
    try rfl
  · rw [h2]
    try rfl
  · rw [h2]
    unfold Receiver.setExtentInvalidating
    rcases hge : Grid.extentSet g (some newExtent) with ⟨g1, err⟩
    rw [hge] at hset
    simp only at hset
    subst hset
    rfl
  · rw [h3]
  · rw [h3]
    simp [cached_method]
  · rw [h4]
    try rfl
  · rw [h4]
    try rfl
  · rw [h4]
    try rfl

/-- C3 counterexample: the concrete scenario of the claim (fresh cache of
capacity 2, two calls with argument 7, grid mutation to a different extent
with the invalidation callback, third call with the same argument): the
third call does recompute, but the cache reports miss count 0, not 2 — the
misses property returns the hit counter, which clear() has just reset. -/
theorem cached_method_reported_misses_counterexample :
    (cached_method (fun _ n => n) (memoR0 Nat Nat gridC1 2) 7).2.2 = true
    ∧ (cached_method (fun _ n => n) (memoR1 (fun _ n => n) gridC1 2 7) 7).2.2 = false
    ∧ (memoR2 (fun _ n => n) gridC1 2 7).cache.misses = 1
    ∧ (memoR2 (fun _ n => n) gridC1 2 7).cache.hits = 1
    ∧ ((memoR2 (fun _ n => n) gridC1 2 7).setExtentInvalidating (some [7])).2 = none
    ∧ ¬ (gridC1.extentSet (some [7])).1.extent = gridC1.extent
    ∧ (cached_method (fun _ n => n) (memoR3 (fun _ n => n) gridC1 2 7 [7]) 7).2.2 = true
    ∧ ¬ (memoR4 (fun _ n => n) gridC1 2 7 [7]).cache.misses = 2
    ∧ (memoR4 (fun _ n => n) gridC1 2 7 [7]).cache.misses = 0 := by
  decide

/-- Witness for the amended C3 theorem at the concrete scenario. -/
theorem cached_method_invalidation_behavior_witness :
    (cached_method (fun _ n => n) (memoR0 Nat Nat gridC1 2) 7).2.2 = true
    ∧ (cached_method (fun _ n => n) (memoR1 (fun _ n => n) gridC1 2 7) 7).2.2 = false
    ∧ (memoR2 (fun _ n => n) gridC1 2 7).cache.hits = 1
    ∧ (memoR2 (fun _ n => n) gridC1 2 7).cache.misses = 1
    ∧ (memoR2 (fun _ n => n) gridC1 2 7).cache._misses = 1
    ∧ ((memoR2 (fun _ n => n) gridC1 2 7).setExtentInvalidating (some [7])).2 = none
    ∧ (memoR3 (fun _ n => n) gridC1 2 7 [7]).cache.cached = []
    ∧ (cached_method (fun _ n => n) (memoR3 (fun _ n => n) gridC1 2 7 [7]) 7).2.2 = true
    ∧ (memoR4 (fun _ n => n) gridC1 2 7 [7]).cache.misses = 0
    ∧ (memoR4 (fun _ n => n) gridC1 2 7 [7]).cache._misses = 1
    ∧ (memoR4 (fun _ n => n) gridC1 2 7 [7]).cache._hits = 0 :=
  cached_method_invalidation_behavior (fun _ n => n) gridC1 7 2 [7]
    (by decide) rfl (by decide)

/-- Witness for C4 at a concrete cache of capacity 2 and three distinct
keys. -/
theorem cache_fifo_eviction_witness :
    ((Cache.fresh Nat Nat (some 2)).insertAll ([0, 1, 2].zip [5, 6, 7])).cached
      = ([0, 1, 2].zip [5, 6, 7]).drop 1
    ∧ ((Cache.fresh Nat Nat (some 2)).insertAll ([0, 1, 2].zip [5, 6, 7])).cached.length = 2
    ∧ ((Cache.fresh Nat Nat (some 2)).insertAll ([0, 1, 2].zip [5, 6, 7])).cached.map
        Prod.fst = [0, 1, 2].drop 1
    ∧ (∀ i : Nat,
        ((Cache.fresh Nat Nat (some 2)).insertAll (([0, 1, 2].zip [5, 6, 7]).take i)).cached.length
          ≤ 2)
    ∧ (∀ (c : Cache Nat Nat) (m : Nat) (key : Nat) (v : Nat), c.max_size = some m →
        c.cached.length ≤ m → key ∈ c.cached.map Prod.fst →
        (c.insert key v).cached.map Prod.fst = c.cached.map Prod.fst
        ∧ (c.insert key v).cached.length = c.cached.length) :=
  cache_fifo_eviction 2 [0, 1, 2] [5, 6, 7] rfl rfl (by decide)


end Abtem
